import Mathlib

/-!
Shallow embedding of `src/etrade_client.py` (class `ETradeClient`).

The client's mutable fields become an explicit `ClientState`; the durable
token file becomes an explicit `Store` value threaded through every
operation; HTTP responses are supplied as oracle arguments; every network
request the code would issue is logged in an explicit `List NetCall`.
Python raises become `Except ETError`; the two raise families of the code
(authentication failures vs. other API failures, distinguished in the
source by their message text) become the two constructors of `ETError`.
-/

namespace ETrade

/-- JSON values, as produced by `response.json()` and by the dict literals
of the source. Numbers are rationals so that both integer quantities and
the float prices of `place_order` are representable exactly. -/
inductive JVal where
  | str (s : String)
  | num (q : Rat)
  | bool (b : Bool)
  | null
  | arr (xs : List JVal)
  | obj (fields : List (String × JVal))
deriving Repr

mutual

/-- Whether a JSON value contains the key `k` in any object anywhere inside it. -/
def JVal.hasKey (k : String) : JVal → Bool
  | .str _ => false
  | .num _ => false
  | .bool _ => false
  | .null => false
  | .arr xs => hasKeyArr k xs
  | .obj fs => hasKeyFields k fs

/-- Key search over a JSON array (the `arr` case of `hasKey`). -/
def hasKeyArr (k : String) : List JVal → Bool
  | [] => false
  | v :: vs => v.hasKey k || hasKeyArr k vs

/-- Key search over the field list of a JSON object. -/
def hasKeyFields (k : String) : List (String × JVal) → Bool
  | [] => false
  | (k', v) :: fs => k' == k || v.hasKey k || hasKeyFields k fs

end

/-- Field lookup in a JSON object (first match, like a Python dict key). -/
def JVal.lookup (k : String) : JVal → Option JVal
  | .obj fs => fs.lookup k
  | _ => none

/-- Index into a JSON array. -/
def JVal.at : JVal → Nat → Option JVal
  | .arr xs, i => xs.get? i
  | _, _ => none

/-- Python truthiness of an optional string field: `None` and `""` are falsy.
The source guards like `if not self.access_token` use exactly this. -/
def truthy : Option String → Bool
  | none => false
  | some s => !(s == "")

/-- The mutable fields of `ETradeClient` (`__init__`): the pending request
token pair, the access token pair, and the `_tokens_validated` cache flag. -/
structure ClientState where
  request_token : Option String
  request_token_secret : Option String
  access_token : Option String
  access_token_secret : Option String
  tokens_validated : Bool
deriving Repr, DecidableEq

/-- The durable token store (the `.etrade_tokens.json` file): absent, or a
record holding `access_token` and `access_token_secret`. -/
abbrev Store := Option (String × String)

/-- The two failure families of the client. The source raises plain
exceptions whose message text distinguishes authentication failures from
other API failures; here they are separate constructors carrying the same
message data. -/
inductive ETError where
  | authError (msg : String)
  | apiError (status : Nat) (body : String)
deriving Repr, DecidableEq

/-- One network request issued by the client: the validation probe of
`_validate_tokens` (tagged with the access token it was signed with), a
real API call of `_make_request`, or the token-exchange call of
`complete_oauth`. -/
inductive NetCall where
  | probe (token : String)
  | real (method : String) (endpoint : String) (data : Option JVal)
  | exchange
deriving Repr

/-- An HTTP response to an API request: status code, raw body text, and the
result of `response.json()` (`none` when decoding raises). -/
structure ApiResp where
  status : Nat
  text : String
  json : Option JVal
deriving Repr

/-- An HTTP response to the access-token exchange, after `parse_qs`:
status, raw text, and the `oauth_token` / `oauth_token_secret` fields
(`none` when the field is missing from the response). -/
structure TokenResp where
  status : Nat
  text : String
  oauth_token : Option String
  oauth_token_secret : Option String
deriving Repr

/-- Model of `_load_tokens`: read the store into the access-token fields; a missing
(or unreadable) store leaves the state unchanged. -/
def load_tokens (s : ClientState) (st : Store) : ClientState :=
  match st with
  | none => s
  | some (t, sec) => { s with access_token := some t, access_token_secret := some sec }

/-- Model of `__init__`: fresh client state (all token fields empty, validation flag
false) followed by `_load_tokens` against the given store. -/
def initClient (st : Store) : ClientState :=
  load_tokens
    { request_token := none, request_token_secret := none,
      access_token := none, access_token_secret := none,
      tokens_validated := false } st

/-- Model of `_save_tokens`: write both access-token fields to the store, but only
when both are truthy; otherwise the store is left unchanged. -/
def save_tokens (s : ClientState) (st : Store) : Store :=
  if truthy s.access_token && truthy s.access_token_secret then
    some (s.access_token.getD "", s.access_token_secret.getD "")
  else st

/-- Model of `_clear_tokens`: drop the in-memory access token pair, reset the
validation flag, and delete the store record. -/
def clear_tokens (s : ClientState) (_st : Store) : ClientState × Store :=
  ({ s with access_token := none, access_token_secret := none, tokens_validated := false },
   none)

/-- Model of `_validate_tokens`: with no (truthy) access token pair, answer `false`
without any network call. Otherwise issue the account-list probe; a
transport exception (`probe = none`) or a 401/403 answers `false`, and
otherwise the tokens count as valid exactly when the status is 200. -/
def validate_tokens (s : ClientState) (probe : Option ApiResp) : Bool × List NetCall :=
  if !truthy s.access_token || !truthy s.access_token_secret then
    (false, [])
  else
    let call := NetCall.probe (s.access_token.getD "")
    match probe with
    | none => (false, [call])
    | some r =>
      if r.status == 401 || r.status == 403 then (false, [call])
      else (r.status == 200, [call])

def notAuthenticatedMsg : String :=
  "Not authenticated. Please run initialize_oauth and complete_oauth first."

def tokensInvalidMsg : String :=
  "Access tokens are invalid or expired. Please run initialize_oauth and complete_oauth to re-authenticate."

def authFailedMsg (status : Nat) : String :=
  "Authentication failed (status " ++ toString status ++
    "). Access tokens may have expired. Please run initialize_oauth and complete_oauth to re-authenticate."

def apiFailedMsg (status : Nat) (text : String) : String :=
  "API request failed: " ++ toString status ++ " - " ++ text

/-- Model of `_check_auth`: fail (no network call) when the access token pair is not
truthy; succeed silently when already validated; otherwise run the
validation probe once, marking the tokens validated on success and
clearing them (memory and store) on failure. -/
def check_auth (s : ClientState) (st : Store) (probe : Option ApiResp) :
    Except ETError Unit × ClientState × Store × List NetCall :=
  if !truthy s.access_token || !truthy s.access_token_secret then
    (.error (.authError notAuthenticatedMsg), s, st, [])
  else if s.tokens_validated then
    (.ok (), s, st, [])
  else
    let v := validate_tokens s probe
    if v.1 then
      (.ok (), { s with tokens_validated := true }, st, v.2)
    else
      let c := clear_tokens s st
      (.error (.authError tokensInvalidMsg), c.1, c.2, v.2)

/-- Model of `_make_request`: run `_check_auth` first (propagating its failure), then the
real call. 401/403 clears the tokens and fails with the authentication
message; any other status outside 200/201 fails with the API message; a
2xx returns the decoded JSON, falling back to
`response: text, status_code: status` when decoding fails. -/
def make_request (method endpoint : String) (data : Option JVal)
    (s : ClientState) (st : Store) (probe : Option ApiResp) (resp : ApiResp) :
    Except ETError JVal × ClientState × Store × List NetCall :=
  match check_auth s st probe with
  | (.error e, s1, st1, calls) => (.error e, s1, st1, calls)
  | (.ok _, s1, st1, calls) =>
    let calls := calls ++ [NetCall.real method endpoint data]
    if resp.status == 401 || resp.status == 403 then
      let c := clear_tokens s1 st1
      (.error (.authError (authFailedMsg resp.status)), c.1, c.2, calls)
    else if !(resp.status == 200 || resp.status == 201) then
      (.error (.apiError resp.status resp.text), s1, st1, calls)
    else
      match resp.json with
      | some j => (.ok j, s1, st1, calls)
      | none =>
        (.ok (.obj [("response", .str resp.text), ("status_code", .num (resp.status : Rat))]),
         s1, st1, calls)

def noRequestTokenMsg : String :=
  "Request token not found. Please run initialize_oauth first."

def exchangeFailedMsg (status : Nat) (text : String) : String :=
  "Failed to get access token: " ++ toString status ++ " - " ++ text

def parseAccessTokenMsg : String :=
  "Failed to parse access token from response"

/-- Model of `complete_oauth` (the body inside its `try`): require a truthy pending
request token pair; issue the exchange; on non-200 fail before touching
any state; otherwise assign the parsed `oauth_token` / `oauth_token_secret`
fields into the access-token slots, and only then check that the token
parsed — failing after the assignment when it did not. On success, save
the tokens (best effort) and reset the validation flag. The Python wrapper
catches the raise and returns an error dict; the `Except` value models
which of the two happened. -/
def complete_oauth (s : ClientState) (st : Store) (resp : TokenResp) :
    Except ETError Unit × ClientState × Store × List NetCall :=
  if !truthy s.request_token || !truthy s.request_token_secret then
    (.error (.authError noRequestTokenMsg), s, st, [])
  else
    let calls := [NetCall.exchange]
    if !(resp.status == 200) then
      (.error (.authError (exchangeFailedMsg resp.status resp.text)), s, st, calls)
    else
      let s1 := { s with access_token := resp.oauth_token,
                         access_token_secret := resp.oauth_token_secret }
      if !truthy s1.access_token then
        (.error (.authError parseAccessTokenMsg), s1, st, calls)
      else
        let st1 := save_tokens s1 st
        let s2 := { s1 with tokens_validated := false }
        (.ok (), s2, st1, calls)

/-- Strip every key whose value is absent, as the two dict comprehensions
`{k: v for k, v in d.items() if v is not None}` of `place_order` do. -/
def stripNone (fields : List (String × Option JVal)) : List (String × JVal) :=
  fields.filterMap (fun kv => kv.2.map (fun v => (kv.1, v)))

/-- The order body built by `place_order` before submission: the nested
dict literal of the source, with the order record and the instrument
record passed through `stripNone`. `now` is `int(time.time())`, used for
the generated `clientOrderId` when none (truthy) is supplied. -/
def place_order_body (symbol : String) (quantity : Int) (order_action : String)
    (order_type : String) (price_type : String)
    (limit_price stop_price : Option Rat) (client_order_id : Option String)
    (now : Nat) : JVal :=
  let instrumentFields : List (String × Option JVal) :=
    [("Product", some (.obj [("securityType", .str "EQ"), ("symbol", .str symbol)])),
     ("orderAction", some (.str order_action)),
     ("quantityType", some (.str "QUANTITY")),
     ("quantity", some (.num (quantity : Rat)))]
  let orderFields : List (String × Option JVal) :=
    [("allOrNone", some (.bool false)),
     ("priceType", some (.str price_type)),
     ("orderTerm", some (.str "GOOD_FOR_DAY")),
     ("marketSession", some (.str "REGULAR")),
     ("stopPrice", stop_price.map (fun p => .num p)),
     ("limitPrice", limit_price.map (fun p => .num p)),
     ("Instrument", some (.arr [.obj (stripNone instrumentFields)]))]
  .obj
    [("orderType", .str order_type),
     ("clientOrderId",
      .str (if truthy client_order_id then client_order_id.getD ""
            else "ORDER_" ++ toString now)),
     ("Order", .arr [.obj (stripNone orderFields)])]

/-- Model of `place_order`: build the body and submit it through `_make_request` as
a POST to the account's orders endpoint. -/
def place_order (account_id symbol : String) (quantity : Int) (order_action : String)
    (order_type : String) (price_type : String)
    (limit_price stop_price : Option Rat) (client_order_id : Option String)
    (now : Nat) (s : ClientState) (st : Store) (probe : Option ApiResp) (resp : ApiResp) :
    Except ETError JVal × ClientState × Store × List NetCall :=
  make_request "POST" ("/v1/accounts/" ++ account_id ++ "/orders")
    (some (place_order_body symbol quantity order_action order_type price_type
      limit_price stop_price client_order_id now))
    s st probe resp

/-- One scheduled `execute()` call: its request shape plus the responses
the network would give it (probe oracle and real response). -/
structure ExecStep where
  method : String
  endpoint : String
  data : Option JVal
  probe : Option ApiResp
  resp : ApiResp

/-- Run a sequence of `execute()` calls, threading state and store and
concatenating the network calls they issue. -/
def runExecs (s : ClientState) (st : Store) : List ExecStep → ClientState × Store × List NetCall
  | [] => (s, st, [])
  | e :: es =>
    let r := make_request e.method e.endpoint e.data s st e.probe e.resp
    let rest := runExecs r.2.1 r.2.2.1 es
    (rest.1, rest.2.1, r.2.2.2 ++ rest.2.2)

/-- Whether a network call is a validation probe. -/
def isProbe : NetCall → Bool
  | .probe _ => true
  | _ => false

/-- Number of validation probes in a call log. -/
def countProbes (calls : List NetCall) : Nat :=
  (calls.filter isProbe).length

/-- Number of validation probes signed with the access-token value `t`. -/
def countProbesFor (t : String) (calls : List NetCall) : Nat :=
  (calls.filter (fun c => match c with | .probe t' => t' == t | _ => false)).length

/-- The error of a request result, when it is one (decidable projection of
an `Except` whose success type has no decidable equality). -/
def errOf {α : Type} (r : Except ETError α) : Option ETError :=
  match r with
  | .error e => some e
  | .ok _ => none

/-- The top-level keys of a JSON object. -/
def keysOf : JVal → List String
  | .obj fs => fs.map Prod.fst
  | _ => []

/-- States from which no further validation probe can ever be issued: the
tokens are already validated for the session, or the access token pair is
not (truthily) present. Every `_make_request` leaves the client in such a
state. -/
def noFurtherProbeB (s : ClientState) : Bool :=
  s.tokens_validated || !truthy s.access_token || !truthy s.access_token_secret

/-- A client that has issued a request token and also holds a saved access
token pair, with the session validation flag set — the starting point of
the `complete_oauth` atomicity counterexample. -/
def c4State : ClientState :=
  { request_token := some "R", request_token_secret := some "RS",
    access_token := some "T", access_token_secret := some "S",
    tokens_validated := true }

/-- A 200 exchange response whose body carries no `oauth_token` field. -/
def c4Resp : TokenResp :=
  { status := 200, text := "oauth_problem=token_rejected",
    oauth_token := none, oauth_token_secret := none }

/-- A client holding only a pending request token pair. -/
def c1State : ClientState :=
  { request_token := some "R", request_token_secret := some "RS",
    access_token := none, access_token_secret := none,
    tokens_validated := false }

/-- An exchange response issuing the access token pair `("T", "S")`. -/
def c1Exch : TokenResp :=
  { status := 200, text := "", oauth_token := some "T", oauth_token_secret := some "S" }

/-- A 200 probe/API response with a well-formed JSON body. -/
def ok200 : ApiResp := { status := 200, text := "ok", json := some .null }

/-- The order body of the C5 scenario: market BUY of 10 AAPL, no limit or
stop price, no client order id, at unix time 1700000000. -/
def c5Body : JVal :=
  place_order_body "AAPL" 10 "BUY" "EQ" "MARKET" none none none 1700000000

/-- An authenticated, already-validated client holding the token pair
`("T", "S")`. -/
def authedState : ClientState :=
  { request_token := none, request_token_secret := none,
    access_token := some "T", access_token_secret := some "S",
    tokens_validated := true }

/-- A client holding the access token pair `("T", "S")`, not yet validated
in this session. -/
def unvalState : ClientState :=
  { request_token := none, request_token_secret := none,
    access_token := some "T", access_token_secret := some "S",
    tokens_validated := false }

/-- A 401 response. -/
def resp401 : ApiResp := { status := 401, text := "unauthorized", json := none }

/-- A 500 response. -/
def resp500 : ApiResp := { status := 500, text := "server error", json := none }

/-- A 200 response whose body is not JSON. -/
def respBadJson : ApiResp := { status := 200, text := "<html>oops</html>", json := none }

theorem truthy_iff (o : Option String) : truthy o = true ↔ ∃ t, o = some t ∧ t ≠ "" := by
  cases o with
  | none => simp [truthy]
  | some a => simp [truthy]

theorem countProbes_append (a b : List NetCall) :
    countProbes (a ++ b) = countProbes a + countProbes b := by
  simp [countProbes]

theorem check_auth_no_token (s : ClientState) (st : Store) (probe : Option ApiResp)
    (h : truthy s.access_token = false ∨ truthy s.access_token_secret = false) :
    check_auth s st probe = (.error (.authError notAuthenticatedMsg), s, st, []) := by
  rcases h with h | h <;> simp [check_auth, h]

theorem check_auth_validated (s : ClientState) (st : Store) (probe : Option ApiResp)
    (ht : truthy s.access_token = true) (hs : truthy s.access_token_secret = true)
    (hv : s.tokens_validated = true) :
    check_auth s st probe = (.ok (), s, st, []) := by
  simp [check_auth, ht, hs, hv]

theorem check_auth_probe_ok (s : ClientState) (st : Store) (p : ApiResp)
    (ht : truthy s.access_token = true) (hs : truthy s.access_token_secret = true)
    (hv : s.tokens_validated = false) (hp : p.status = 200) :
    check_auth s st (some p) =
      (.ok (), { s with tokens_validated := true }, st,
       [.probe (s.access_token.getD "")]) := by
  simp [check_auth, validate_tokens, ht, hs, hv, hp]

theorem check_auth_probe_fail (s : ClientState) (st : Store) (p : ApiResp)
    (ht : truthy s.access_token = true) (hs : truthy s.access_token_secret = true)
    (hv : s.tokens_validated = false) (hp : p.status ≠ 200) :
    check_auth s st (some p) =
      (.error (.authError tokensInvalidMsg),
       { s with access_token := none, access_token_secret := none, tokens_validated := false },
       none, [.probe (s.access_token.getD "")]) := by
  by_cases h1 : p.status = 401
  · simp [check_auth, validate_tokens, clear_tokens, ht, hs, hv, h1]
  · by_cases h3 : p.status = 403
    · simp [check_auth, validate_tokens, clear_tokens, ht, hs, hv, h3]
    · simp [check_auth, validate_tokens, clear_tokens, ht, hs, hv, h1, h3, hp]

theorem check_auth_probe_exn (s : ClientState) (st : Store)
    (ht : truthy s.access_token = true) (hs : truthy s.access_token_secret = true)
    (hv : s.tokens_validated = false) :
    check_auth s st none =
      (.error (.authError tokensInvalidMsg),
       { s with access_token := none, access_token_secret := none, tokens_validated := false },
       none, [.probe (s.access_token.getD "")]) := by
  simp [check_auth, validate_tokens, clear_tokens, ht, hs, hv]

/-- C3: for an instance with no access token present, every `execute()`
fails with the not-authenticated `AuthError`, issues zero network calls,
and leaves client state and store untouched. -/
theorem execute_unauthenticated_no_network (method endpoint : String) (data : Option JVal)
    (s : ClientState) (st : Store) (probe : Option ApiResp) (resp : ApiResp)
    (h : s.access_token = none) :
    (make_request method endpoint data s st probe resp).1 =
      .error (.authError notAuthenticatedMsg) ∧
    (make_request method endpoint data s st probe resp).2.2.2 = [] ∧
    (make_request method endpoint data s st probe resp).2.1 = s ∧
    (make_request method endpoint data s st probe resp).2.2.1 = st := by
  have hc := check_auth_no_token s st probe (Or.inl (by simp [h, truthy]))
  simp [make_request, hc]

theorem execute_unauthenticated_no_network_witness :
    (initClient none).access_token = none ∧
    ((make_request "GET" "/v1/accounts/list" none (initClient none) none none ok200).1 =
        .error (.authError notAuthenticatedMsg) ∧
      (make_request "GET" "/v1/accounts/list" none (initClient none) none none ok200).2.2.2 = [] ∧
      (make_request "GET" "/v1/accounts/list" none (initClient none) none none ok200).2.1 =
        initClient none ∧
      (make_request "GET" "/v1/accounts/list" none (initClient none) none none ok200).2.2.1 = none) :=
  ⟨rfl, execute_unauthenticated_no_network "GET" "/v1/accounts/list" none
    (initClient none) none none ok200 rfl⟩

/-- C5: for the market BUY of 10 AAPL with no limit, stop, or client order
id, the submitted body contains no `limitPrice` or `stopPrice` key
anywhere, `quantity` is `10` under the first instrument of the first order,
the stripped order record and instrument record keep exactly their
non-absent keys, and `place_order` submits exactly this body as the POST
data. -/
theorem place_order_market_body_stripped :
    c5Body.hasKey "limitPrice" = false ∧
    c5Body.hasKey "stopPrice" = false ∧
    ((c5Body.lookup "Order").bind (fun v => v.at 0) |>.bind (JVal.lookup "Instrument")
      |>.bind (fun v => v.at 0) |>.bind (JVal.lookup "quantity")) = some (.num 10) ∧
    ((c5Body.lookup "Order").bind (fun v => v.at 0)).map keysOf =
      some ["allOrNone", "priceType", "orderTerm", "marketSession", "Instrument"] ∧
    (((c5Body.lookup "Order").bind (fun v => v.at 0) |>.bind (JVal.lookup "Instrument")
      |>.bind (fun v => v.at 0))).map keysOf =
      some ["Product", "orderAction", "quantityType", "quantity"] ∧
    (place_order "ACC1" "AAPL" 10 "BUY" "EQ" "MARKET" none none none 1700000000
        authedState (some ("T", "S")) none ok200).2.2.2 =
      [.real "POST" "/v1/accounts/ACC1/orders" (some c5Body)] :=
  ⟨rfl, rfl, rfl, rfl, rfl, rfl⟩

/-- C10: the store write of `_save_tokens` happens the store only when both the access token
and the secret are present and non-empty — and then writes exactly both,
non-empty; when either is absent or empty, the store is left unchanged. -/
theorem save_tokens_written_only_when_both_present (s : ClientState) (st : Store) :
    (truthy s.access_token = true → truthy s.access_token_secret = true →
      save_tokens s st = some (s.access_token.getD "", s.access_token_secret.getD "") ∧
      s.access_token.getD "" ≠ "" ∧ s.access_token_secret.getD "" ≠ "") ∧
    (¬(truthy s.access_token = true ∧ truthy s.access_token_secret = true) →
      save_tokens s st = st) := by
  constructor
  · intro ht hs
    refine ⟨by simp [save_tokens, ht, hs], ?_, ?_⟩
    · rcases (truthy_iff _).1 ht with ⟨t, hto, htn⟩
      simp [hto, htn]
    · rcases (truthy_iff _).1 hs with ⟨t, hto, htn⟩
      simp [hto, htn]
  · intro h
    have hf : ¬((truthy s.access_token && truthy s.access_token_secret) = true) := by
      simpa [Bool.and_eq_true] using h
    simp [save_tokens, hf]

theorem save_tokens_written_only_when_both_present_witness :
    ((truthy authedState.access_token = true → truthy authedState.access_token_secret = true →
      save_tokens authedState none =
        some (authedState.access_token.getD "", authedState.access_token_secret.getD "") ∧
      authedState.access_token.getD "" ≠ "" ∧ authedState.access_token_secret.getD "" ≠ "") ∧
    (¬(truthy authedState.access_token = true ∧ truthy authedState.access_token_secret = true) →
      save_tokens authedState none = none)) :=
  save_tokens_written_only_when_both_present authedState none

/-- C8: a store containing the pair `(T, S)` loads at construction into the
in-memory access token fields, and saving a client holding a non-empty
pair `(T, S)` writes exactly that record, which a fresh construction then
loads back — before any network call is made. -/
theorem token_store_round_trip (T S : String) (st : Store) (hT : T ≠ "") (hS : S ≠ "") :
    (initClient (some (T, S))).access_token = some T ∧
    (initClient (some (T, S))).access_token_secret = some S ∧
    save_tokens
      { request_token := none, request_token_secret := none,
        access_token := some T, access_token_secret := some S,
        tokens_validated := false } st = some (T, S) ∧
    (initClient (save_tokens
      { request_token := none, request_token_secret := none,
        access_token := some T, access_token_secret := some S,
        tokens_validated := false } st)).access_token = some T ∧
    (initClient (save_tokens
      { request_token := none, request_token_secret := none,
        access_token := some T, access_token_secret := some S,
        tokens_validated := false } st)).access_token_secret = some S := by
  have hsave : save_tokens
      { request_token := none, request_token_secret := none,
        access_token := some T, access_token_secret := some S,
        tokens_validated := false } st = some (T, S) := by
    simp [save_tokens, truthy, hT, hS]
  exact ⟨rfl, rfl, hsave, by simp [hsave, initClient, load_tokens],
    by simp [hsave, initClient, load_tokens]⟩

theorem make_request_of_check_ok (method endpoint : String) (data : Option JVal)
    (s s1 : ClientState) (st st1 : Store) (probe : Option ApiResp) (resp : ApiResp)
    (calls : List NetCall)
    (h : check_auth s st probe = (.ok (), s1, st1, calls)) :
    (make_request method endpoint data s st probe resp).2.2.2 =
      calls ++ [.real method endpoint data] ∧
    ((make_request method endpoint data s st probe resp).2.1 = s1 ∨
      (make_request method endpoint data s st probe resp).2.1 =
        { s1 with access_token := none, access_token_secret := none,
                  tokens_validated := false }) := by
  by_cases h4 : (resp.status == 401 || resp.status == 403) = true
  · simp [make_request, h, h4, clear_tokens]
  · by_cases hok : (resp.status == 200 || resp.status == 201) = true
    · cases hj : resp.json with
      | none => simp [make_request, h, h4, hok, hj]
      | some j => simp [make_request, h, h4, hok, hj]
    · simp [make_request, h, h4, hok]

theorem make_request_ok_not_auth_fail (method endpoint : String) (data : Option JVal)
    (s s1 : ClientState) (st st1 : Store) (probe : Option ApiResp) (resp : ApiResp)
    (calls : List NetCall)
    (h : check_auth s st probe = (.ok (), s1, st1, calls))
    (h4 : resp.status ≠ 401) (h4' : resp.status ≠ 403) :
    (make_request method endpoint data s st probe resp).2.1 = s1 ∧
    (make_request method endpoint data s st probe resp).2.2.1 = st1 ∧
    (make_request method endpoint data s st probe resp).2.2.2 =
      calls ++ [.real method endpoint data] := by
  have b1 : (resp.status == 401) = false := by simp [h4]
  have b2 : (resp.status == 403) = false := by simp [h4']
  by_cases hok : (resp.status == 200 || resp.status == 201) = true
  · cases hj : resp.json with
    | none => simp [make_request, h, b1, b2, hok, hj]
    | some j => simp [make_request, h, b1, b2, hok, hj]
  · simp [make_request, h, b1, b2, hok]

theorem make_request_probe_bound (method endpoint : String) (data : Option JVal)
    (s : ClientState) (st : Store) (probe : Option ApiResp) (resp : ApiResp) :
    countProbes (make_request method endpoint data s st probe resp).2.2.2 ≤ 1 ∧
    noFurtherProbeB (make_request method endpoint data s st probe resp).2.1 = true := by
  by_cases ht : truthy s.access_token = true
  case neg =>
    have hf : truthy s.access_token = false := by simpa using ht
    have hc := check_auth_no_token s st probe (Or.inl hf)
    simp [make_request, hc, countProbes, noFurtherProbeB, hf]
  case pos =>
  by_cases hsec : truthy s.access_token_secret = true
  case neg =>
    have hf : truthy s.access_token_secret = false := by simpa using hsec
    have hc := check_auth_no_token s st probe (Or.inr hf)
    simp [make_request, hc, countProbes, noFurtherProbeB, hf]
  case pos =>
  by_cases hv : s.tokens_validated
  · have hc := check_auth_validated s st probe ht hsec hv
    have hmr := make_request_of_check_ok method endpoint data s s st st probe resp [] hc
    constructor
    · rw [hmr.1]; simp [countProbes, isProbe]
    · rcases hmr.2 with h | h <;> rw [h] <;> simp [noFurtherProbeB, hv, truthy]
  · have hv' : s.tokens_validated = false := by simpa using hv
    cases hprobe : probe with
    | none =>
      have hc := check_auth_probe_exn s st ht hsec hv'
      simp [make_request, hc, countProbes, isProbe, noFurtherProbeB, truthy]
    | some p =>
      by_cases hp : p.status = 200
      · have hc := check_auth_probe_ok s st p ht hsec hv' hp
        have hmr := make_request_of_check_ok method endpoint data s
          { s with tokens_validated := true } st st (some p) resp
          [.probe (s.access_token.getD "")] hc
        constructor
        · rw [hmr.1]; simp [countProbes, isProbe]
        · rcases hmr.2 with h | h <;> rw [h] <;> simp [noFurtherProbeB, truthy]
      · have hc := check_auth_probe_fail s st p ht hsec hv' hp
        simp [make_request, hc, countProbes, isProbe, noFurtherProbeB, truthy]

theorem make_request_no_probe_after (method endpoint : String) (data : Option JVal)
    (s : ClientState) (st : Store) (probe : Option ApiResp) (resp : ApiResp)
    (h : noFurtherProbeB s = true) :
    countProbes (make_request method endpoint data s st probe resp).2.2.2 = 0 ∧
    noFurtherProbeB (make_request method endpoint data s st probe resp).2.1 = true := by
  by_cases ht : truthy s.access_token = true
  case neg =>
    have hf : truthy s.access_token = false := by simpa using ht
    have hc := check_auth_no_token s st probe (Or.inl hf)
    simp [make_request, hc, countProbes, noFurtherProbeB, hf]
  case pos =>
  by_cases hsec : truthy s.access_token_secret = true
  case neg =>
    have hf : truthy s.access_token_secret = false := by simpa using hsec
    have hc := check_auth_no_token s st probe (Or.inr hf)
    simp [make_request, hc, countProbes, noFurtherProbeB, hf]
  case pos =>
  have hv : s.tokens_validated = true := by
    have h' := h
    simp [noFurtherProbeB] at h'
    rcases h' with (h' | h') | h'
    · exact h'
    · simp [h'] at ht
    · simp [h'] at hsec
  have hc := check_auth_validated s st probe ht hsec hv
  have hmr := make_request_of_check_ok method endpoint data s s st st probe resp [] hc
  constructor
  · rw [hmr.1]; simp [countProbes, isProbe]
  · rcases hmr.2 with h' | h' <;> rw [h'] <;> simp [noFurtherProbeB, hv, truthy]

theorem runExecs_no_probe (es : List ExecStep) : ∀ (s : ClientState) (st : Store),
    noFurtherProbeB s = true → countProbes (runExecs s st es).2.2 = 0 := by
  induction es with
  | nil => intro s st _; simp [runExecs, countProbes]
  | cons e es ih =>
    intro s st h
    have h1 := make_request_no_probe_after e.method e.endpoint e.data s st e.probe e.resp h
    simp [runExecs, countProbes_append, h1.1, ih _ _ h1.2]

theorem runExecs_probe_bound (s : ClientState) (st : Store) (es : List ExecStep) :
    countProbes (runExecs s st es).2.2 ≤ 1 := by
  cases es with
  | nil => simp [runExecs, countProbes]
  | cons e es =>
    have h1 := make_request_probe_bound e.method e.endpoint e.data s st e.probe e.resp
    have h2 := runExecs_no_probe es
      (make_request e.method e.endpoint e.data s st e.probe e.resp).2.1
      (make_request e.method e.endpoint e.data s st e.probe e.resp).2.2.1 h1.2
    simpa [runExecs, countProbes_append, h2] using h1.1

theorem complete_oauth_success (s : ClientState) (st : Store) (exch : TokenResp)
    (hr : truthy s.request_token = true) (hrs : truthy s.request_token_secret = true)
    (hst : exch.status = 200) (htok : truthy exch.oauth_token = true) :
    complete_oauth s st exch =
      (.ok (),
       { s with access_token := exch.oauth_token,
                access_token_secret := exch.oauth_token_secret,
                tokens_validated := false },
       save_tokens
         { s with access_token := exch.oauth_token,
                  access_token_secret := exch.oauth_token_secret } st,
       [.exchange]) := by
  simp [complete_oauth, hr, hrs, hst, htok]

/-- C1 is false as stated in its per-token-value form: running
`complete_oauth` a second time (the exchange returning the very same token
value "T") resets the validation flag, so the next `execute()` issues a
second validation probe signed with the same access-token value — two
probes for one value, against "at most one validation probe is ever
issued" per value. -/
theorem probe_per_token_value_counterexample :
    (let r1 := complete_oauth c1State none c1Exch
     let r2 := make_request "GET" "/v1/accounts/list" none r1.2.1 r1.2.2.1 (some ok200) ok200
     let r3 := complete_oauth r2.2.1 r2.2.2.1 c1Exch
     let r4 := make_request "GET" "/v1/accounts/list" none r3.2.1 r3.2.2.1 (some ok200) ok200
     r1.2.1.access_token = some "T" ∧
     r3.2.1.access_token = some "T" ∧
     countProbesFor "T" (r1.2.2.2 ++ r2.2.2.2 ++ r3.2.2.2 ++ r4.2.2.2) = 2) := by
  decide

/-- C1 (amended): after a successful `complete_oauth` the validation flag
is false; the first subsequent `execute()` issues exactly one validation
probe (signed with the new access token) followed by the real call; a
second `execute()` issues only the real call; and any sequence of
`execute()` calls following the authorization issues at most one probe in
total. The at-most-one-probe bound is per completed authorization, not
per access-token value: a repeated `complete_oauth` resets the validation
flag even when the exchange returns the same token value, after which the
same value is probed again. -/
theorem validation_probe_caching_amended
    (s : ClientState) (st : Store) (exch : TokenResp) (e1 e2 : ExecStep)
    (es : List ExecStep) (p1 : ApiResp)
    (hr : truthy s.request_token = true) (hrs : truthy s.request_token_secret = true)
    (hst : exch.status = 200)
    (htok : truthy exch.oauth_token = true) (hsec : truthy exch.oauth_token_secret = true)
    (hp1 : e1.probe = some p1) (hp1s : p1.status = 200)
    (hr1 : e1.resp.status ≠ 401) (hr1' : e1.resp.status ≠ 403) :
    (complete_oauth s st exch).1 = .ok () ∧
    (complete_oauth s st exch).2.1.tokens_validated = false ∧
    (make_request e1.method e1.endpoint e1.data (complete_oauth s st exch).2.1
        (complete_oauth s st exch).2.2.1 e1.probe e1.resp).2.2.2 =
      [.probe (exch.oauth_token.getD ""), .real e1.method e1.endpoint e1.data] ∧
    (make_request e2.method e2.endpoint e2.data
        (make_request e1.method e1.endpoint e1.data (complete_oauth s st exch).2.1
          (complete_oauth s st exch).2.2.1 e1.probe e1.resp).2.1
        (make_request e1.method e1.endpoint e1.data (complete_oauth s st exch).2.1
          (complete_oauth s st exch).2.2.1 e1.probe e1.resp).2.2.1
        e2.probe e2.resp).2.2.2 =
      [.real e2.method e2.endpoint e2.data] ∧
    countProbes (runExecs (complete_oauth s st exch).2.1
        (complete_oauth s st exch).2.2.1 es).2.2 ≤ 1 := by
  have hco := complete_oauth_success s st exch hr hrs hst htok
  set s2 : ClientState :=
    { s with access_token := exch.oauth_token,
             access_token_secret := exch.oauth_token_secret,
             tokens_validated := false } with hs2
  set st2 : Store :=
    save_tokens
      { s with access_token := exch.oauth_token,
               access_token_secret := exch.oauth_token_secret } st with hst2
  have hc1 : check_auth s2 st2 (some p1) =
      (.ok (), { s2 with tokens_validated := true }, st2,
       [.probe (s2.access_token.getD "")]) :=
    check_auth_probe_ok s2 st2 p1 (by simp [hs2, htok]) (by simp [hs2, hsec]) (by simp [hs2])
      hp1s
  have hmr1 := make_request_ok_not_auth_fail e1.method e1.endpoint e1.data s2
    { s2 with tokens_validated := true } st2 st2 (some p1) e1.resp
    [.probe (s2.access_token.getD "")] hc1 hr1 hr1'
  rw [hp1]
  have hc2 : check_auth { s2 with tokens_validated := true }
      (make_request e1.method e1.endpoint e1.data s2 st2 (some p1) e1.resp).2.2.1
      e2.probe =
      (.ok (), { s2 with tokens_validated := true },
       (make_request e1.method e1.endpoint e1.data s2 st2 (some p1) e1.resp).2.2.1, []) :=
    check_auth_validated _ _ e2.probe (by simp [hs2, htok]) (by simp [hs2, hsec]) (by simp)
  have hmr2 := make_request_of_check_ok e2.method e2.endpoint e2.data
    { s2 with tokens_validated := true }
    { s2 with tokens_validated := true }
    (make_request e1.method e1.endpoint e1.data s2 st2 (some p1) e1.resp).2.2.1
    (make_request e1.method e1.endpoint e1.data s2 st2 (some p1) e1.resp).2.2.1
    e2.probe e2.resp [] hc2
  refine ⟨by rw [hco], by rw [hco], ?_, ?_, ?_⟩
  · rw [hco]
    simp only []
    rw [hmr1.2.2]
    simp [hs2]
  · rw [hco]
    simp only []
    rw [hmr1.1]
    rw [hmr2.1]
    simp
  · rw [hco]
    exact runExecs_probe_bound s2 st2 es

/-- An `execute()` step whose probe and real response both succeed. -/
def execOkStep : ExecStep :=
  { method := "GET", endpoint := "/v1/accounts/list", data := none,
    probe := some ok200, resp := ok200 }

theorem validation_probe_caching_amended_witness :
    (complete_oauth c1State none c1Exch).1 = .ok () ∧
    (complete_oauth c1State none c1Exch).2.1.tokens_validated = false ∧
    (make_request execOkStep.method execOkStep.endpoint execOkStep.data
        (complete_oauth c1State none c1Exch).2.1
        (complete_oauth c1State none c1Exch).2.2.1
        execOkStep.probe execOkStep.resp).2.2.2 =
      [.probe (c1Exch.oauth_token.getD ""),
       .real execOkStep.method execOkStep.endpoint execOkStep.data] ∧
    (make_request execOkStep.method execOkStep.endpoint execOkStep.data
        (make_request execOkStep.method execOkStep.endpoint execOkStep.data
          (complete_oauth c1State none c1Exch).2.1
          (complete_oauth c1State none c1Exch).2.2.1
          execOkStep.probe execOkStep.resp).2.1
        (make_request execOkStep.method execOkStep.endpoint execOkStep.data
          (complete_oauth c1State none c1Exch).2.1
          (complete_oauth c1State none c1Exch).2.2.1
          execOkStep.probe execOkStep.resp).2.2.1
        execOkStep.probe execOkStep.resp).2.2.2 =
      [.real execOkStep.method execOkStep.endpoint execOkStep.data] ∧
    countProbes (runExecs (complete_oauth c1State none c1Exch).2.1
        (complete_oauth c1State none c1Exch).2.2.1 [execOkStep, execOkStep]).2.2 ≤ 1 :=
  validation_probe_caching_amended c1State none c1Exch execOkStep execOkStep
    [execOkStep, execOkStep] ok200 (by decide) (by decide) (by decide) (by decide)
    (by decide) rfl (by decide) (by decide) (by decide)

/-- C6: a 200/201 response whose body fails to decode as JSON makes
`execute()` return the structured fallback holding the raw body text and
the status code, rather than failing with a decoding error. -/
theorem execute_malformed_json_fallback (method endpoint : String) (data : Option JVal)
    (s : ClientState) (st : Store) (p : ApiResp) (resp : ApiResp)
    (ht : truthy s.access_token = true) (hs : truthy s.access_token_secret = true)
    (hauth : s.tokens_validated = true ∨ p.status = 200)
    (hstatus : resp.status = 200 ∨ resp.status = 201)
    (hjson : resp.json = none) :
    (make_request method endpoint data s st (some p) resp).1 =
      .ok (.obj [("response", .str resp.text), ("status_code", .num (resp.status : Rat))]) := by
  by_cases hv : s.tokens_validated
  · have hc := check_auth_validated s st (some p) ht hs hv
    rcases hstatus with h | h <;> simp [make_request, hc, h, hjson]
  · rcases hauth with hv' | hp
    · exact absurd hv' hv
    · have hc := check_auth_probe_ok s st p ht hs (by simpa using hv) hp
      rcases hstatus with h | h <;> simp [make_request, hc, h, hjson]

theorem execute_malformed_json_fallback_witness :
    (make_request "GET" "/v1/accounts/list" none authedState (some ("T", "S"))
        (some ok200) respBadJson).1 =
      .ok (.obj [("response", .str respBadJson.text),
                 ("status_code", .num (respBadJson.status : Rat))]) :=
  execute_malformed_json_fallback "GET" "/v1/accounts/list" none authedState
    (some ("T", "S")) ok200 respBadJson (by decide) (by decide)
    (Or.inl (by decide)) (Or.inl (by decide)) rfl

/-- C7: a response status outside 200/201 that is not 401/403 makes
`execute()` fail with `ApiError` carrying the status code and raw body. -/
theorem execute_other_status_api_error (method endpoint : String) (data : Option JVal)
    (s : ClientState) (st : Store) (p : ApiResp) (resp : ApiResp)
    (ht : truthy s.access_token = true) (hs : truthy s.access_token_secret = true)
    (hauth : s.tokens_validated = true ∨ p.status = 200)
    (h200 : resp.status ≠ 200) (h201 : resp.status ≠ 201)
    (h401 : resp.status ≠ 401) (h403 : resp.status ≠ 403) :
    (make_request method endpoint data s st (some p) resp).1 =
      .error (.apiError resp.status resp.text) := by
  have b401 : (resp.status == 401) = false := by simp [h401]
  have b403 : (resp.status == 403) = false := by simp [h403]
  have b200 : (resp.status == 200) = false := by simp [h200]
  have b201 : (resp.status == 201) = false := by simp [h201]
  by_cases hv : s.tokens_validated
  · have hc := check_auth_validated s st (some p) ht hs hv
    simp [make_request, hc, b401, b403, b200, b201]
  · rcases hauth with hv' | hp
    · exact absurd hv' hv
    · have hc := check_auth_probe_ok s st p ht hs (by simpa using hv) hp
      simp [make_request, hc, b401, b403, b200, b201]

theorem execute_other_status_api_error_witness :
    (make_request "GET" "/v1/accounts/list" none authedState (some ("T", "S"))
        (some ok200) resp500).1 =
      .error (.apiError resp500.status resp500.text) :=
  execute_other_status_api_error "GET" "/v1/accounts/list" none authedState
    (some ("T", "S")) ok200 resp500 (by decide) (by decide) (Or.inl (by decide))
    (by decide) (by decide) (by decide) (by decide)

/-- C2: whether the 401/403 arrives on the validation probe or on the real
call, `execute()` fails with an `AuthError` (the `authError` constructor,
distinct from `apiError`), the in-memory access token pair becomes absent,
and the durable store record is deleted. -/
theorem execute_auth_failure_clears_tokens (method endpoint : String) (data : Option JVal)
    (s : ClientState) (st : Store) (p : ApiResp) (resp : ApiResp)
    (ht : truthy s.access_token = true) (hs : truthy s.access_token_secret = true) :
    (s.tokens_validated = false → (p.status = 401 ∨ p.status = 403) →
      (make_request method endpoint data s st (some p) resp).1 =
        .error (.authError tokensInvalidMsg) ∧
      (make_request method endpoint data s st (some p) resp).2.1.access_token = none ∧
      (make_request method endpoint data s st (some p) resp).2.1.access_token_secret = none ∧
      (make_request method endpoint data s st (some p) resp).2.2.1 = none) ∧
    ((s.tokens_validated = true ∨ p.status = 200) →
      (resp.status = 401 ∨ resp.status = 403) →
      (make_request method endpoint data s st (some p) resp).1 =
        .error (.authError (authFailedMsg resp.status)) ∧
      (make_request method endpoint data s st (some p) resp).2.1.access_token = none ∧
      (make_request method endpoint data s st (some p) resp).2.1.access_token_secret = none ∧
      (make_request method endpoint data s st (some p) resp).2.2.1 = none) := by
  constructor
  · intro hv hps
    have hne : p.status ≠ 200 := by rcases hps with h | h <;> simp [h]
    have hc := check_auth_probe_fail s st p ht hs hv hne
    simp [make_request, hc]
  · intro hauth hrs
    by_cases hv : s.tokens_validated
    · have hc := check_auth_validated s st (some p) ht hs hv
      rcases hrs with h | h <;> simp [make_request, hc, h, clear_tokens]
    · rcases hauth with hv' | hp
      · exact absurd hv' hv
      · have hc := check_auth_probe_ok s st p ht hs (by simpa using hv) hp
        rcases hrs with h | h <;> simp [make_request, hc, h, clear_tokens]

theorem execute_auth_failure_clears_tokens_witness :
    ((unvalState.tokens_validated = false → (resp401.status = 401 ∨ resp401.status = 403) →
      (make_request "GET" "/v1/accounts/list" none unvalState (some ("T", "S"))
          (some resp401) ok200).1 = .error (.authError tokensInvalidMsg) ∧
      (make_request "GET" "/v1/accounts/list" none unvalState (some ("T", "S"))
          (some resp401) ok200).2.1.access_token = none ∧
      (make_request "GET" "/v1/accounts/list" none unvalState (some ("T", "S"))
          (some resp401) ok200).2.1.access_token_secret = none ∧
      (make_request "GET" "/v1/accounts/list" none unvalState (some ("T", "S"))
          (some resp401) ok200).2.2.1 = none) ∧
    ((unvalState.tokens_validated = true ∨ resp401.status = 200) →
      (ok200.status = 401 ∨ ok200.status = 403) →
      (make_request "GET" "/v1/accounts/list" none unvalState (some ("T", "S"))
          (some resp401) ok200).1 = .error (.authError (authFailedMsg ok200.status)) ∧
      (make_request "GET" "/v1/accounts/list" none unvalState (some ("T", "S"))
          (some resp401) ok200).2.1.access_token = none ∧
      (make_request "GET" "/v1/accounts/list" none unvalState (some ("T", "S"))
          (some resp401) ok200).2.1.access_token_secret = none ∧
      (make_request "GET" "/v1/accounts/list" none unvalState (some ("T", "S"))
          (some resp401) ok200).2.2.1 = none)) :=
  execute_auth_failure_clears_tokens "GET" "/v1/accounts/list" none unvalState
    (some ("T", "S")) resp401 ok200 (by decide) (by decide)

/-- C9: the validation probe treats every non-200 status (and a transport
exception) as invalid: the access token pair is cleared from memory and
the store, and `execute()` fails with the tokens-invalid `AuthError`,
exactly as for 401/403. -/
theorem probe_non_200_invalidates_tokens (method endpoint : String) (data : Option JVal)
    (s : ClientState) (st : Store) (p : ApiResp) (resp : ApiResp)
    (ht : truthy s.access_token = true) (hs : truthy s.access_token_secret = true)
    (hv : s.tokens_validated = false) (hp : p.status ≠ 200) :
    ((make_request method endpoint data s st (some p) resp).1 =
        .error (.authError tokensInvalidMsg) ∧
      (make_request method endpoint data s st (some p) resp).2.1.access_token = none ∧
      (make_request method endpoint data s st (some p) resp).2.1.access_token_secret = none ∧
      (make_request method endpoint data s st (some p) resp).2.2.1 = none ∧
      (make_request method endpoint data s st (some p) resp).2.2.2 =
        [.probe (s.access_token.getD "")]) ∧
    ((make_request method endpoint data s st none resp).1 =
        .error (.authError tokensInvalidMsg) ∧
      (make_request method endpoint data s st none resp).2.1.access_token = none ∧
      (make_request method endpoint data s st none resp).2.1.access_token_secret = none ∧
      (make_request method endpoint data s st none resp).2.2.1 = none) := by
  have hc := check_auth_probe_fail s st p ht hs hv hp
  have hc' := check_auth_probe_exn s st ht hs hv
  exact ⟨by simp [make_request, hc], by simp [make_request, hc']⟩

theorem probe_non_200_invalidates_tokens_witness :
    (((make_request "GET" "/v1/accounts/list" none unvalState (some ("T", "S"))
        (some resp500) ok200).1 = .error (.authError tokensInvalidMsg) ∧
      (make_request "GET" "/v1/accounts/list" none unvalState (some ("T", "S"))
        (some resp500) ok200).2.1.access_token = none ∧
      (make_request "GET" "/v1/accounts/list" none unvalState (some ("T", "S"))
        (some resp500) ok200).2.1.access_token_secret = none ∧
      (make_request "GET" "/v1/accounts/list" none unvalState (some ("T", "S"))
        (some resp500) ok200).2.2.1 = none ∧
      (make_request "GET" "/v1/accounts/list" none unvalState (some ("T", "S"))
        (some resp500) ok200).2.2.2 = [.probe (unvalState.access_token.getD "")]) ∧
    ((make_request "GET" "/v1/accounts/list" none unvalState (some ("T", "S"))
        none ok200).1 = .error (.authError tokensInvalidMsg) ∧
      (make_request "GET" "/v1/accounts/list" none unvalState (some ("T", "S"))
        none ok200).2.1.access_token = none ∧
      (make_request "GET" "/v1/accounts/list" none unvalState (some ("T", "S"))
        none ok200).2.1.access_token_secret = none ∧
      (make_request "GET" "/v1/accounts/list" none unvalState (some ("T", "S"))
        none ok200).2.2.1 = none)) :=
  probe_non_200_invalidates_tokens "GET" "/v1/accounts/list" none unvalState
    (some ("T", "S")) resp500 ok200 (by decide) (by decide) (by decide) (by decide)

/-- C4 is false as stated: with a pending request token, an in-memory
access token pair `("T", "S")`, and a 200 exchange response missing the
token field, `complete_oauth` fails — but the in-memory access token has
been overwritten (to absent), so the state is not the same as before. -/
theorem complete_oauth_not_atomic_counterexample :
    errOf (complete_oauth c4State (some ("T", "S")) c4Resp).1 =
      some (.authError parseAccessTokenMsg) ∧
    c4State.access_token = some "T" ∧
    (complete_oauth c4State (some ("T", "S")) c4Resp).2.1.access_token = none ∧
    (complete_oauth c4State (some ("T", "S")) c4Resp).2.1 ≠ c4State := by
  decide

/-- C4 (amended): with a pending request token, a non-200 exchange response
fails with `AuthError` and leaves client state and store unchanged; a 200
response missing the token field also fails with `AuthError` and leaves
the durable store (and hence the validation flag and request token) as
they were, but only after overwriting the in-memory access token and
secret with the parsed (absent) field values. -/
theorem complete_oauth_failure_behavior (s : ClientState) (st : Store) (resp : TokenResp)
    (hr : truthy s.request_token = true) (hrs : truthy s.request_token_secret = true) :
    (resp.status ≠ 200 →
      (complete_oauth s st resp).1 =
        .error (.authError (exchangeFailedMsg resp.status resp.text)) ∧
      (complete_oauth s st resp).2.1 = s ∧
      (complete_oauth s st resp).2.2.1 = st) ∧
    (resp.status = 200 → truthy resp.oauth_token = false →
      (complete_oauth s st resp).1 = .error (.authError parseAccessTokenMsg) ∧
      (complete_oauth s st resp).2.1 =
        { s with access_token := resp.oauth_token,
                 access_token_secret := resp.oauth_token_secret } ∧
      (complete_oauth s st resp).2.2.1 = st) := by
  constructor
  · intro hst
    have hb : (resp.status == 200) = false := by simp [hst]
    simp [complete_oauth, hr, hrs, hb]
  · intro hst htok
    simp [complete_oauth, hr, hrs, hst, htok]

theorem complete_oauth_failure_behavior_witness :
    ((c4Resp.status ≠ 200 →
      (complete_oauth c4State (some ("T", "S")) c4Resp).1 =
        .error (.authError (exchangeFailedMsg c4Resp.status c4Resp.text)) ∧
      (complete_oauth c4State (some ("T", "S")) c4Resp).2.1 = c4State ∧
      (complete_oauth c4State (some ("T", "S")) c4Resp).2.2.1 = some ("T", "S")) ∧
    (c4Resp.status = 200 → truthy c4Resp.oauth_token = false →
      (complete_oauth c4State (some ("T", "S")) c4Resp).1 =
        .error (.authError parseAccessTokenMsg) ∧
      (complete_oauth c4State (some ("T", "S")) c4Resp).2.1 =
        { c4State with access_token := c4Resp.oauth_token,
                       access_token_secret := c4Resp.oauth_token_secret } ∧
      (complete_oauth c4State (some ("T", "S")) c4Resp).2.2.1 = some ("T", "S"))) :=
  complete_oauth_failure_behavior c4State (some ("T", "S")) c4Resp (by decide) (by decide)

theorem token_store_round_trip_witness :
    ("T" ≠ "" ∧ "S" ≠ "") ∧
    ((initClient (some ("T", "S"))).access_token = some "T" ∧
      (initClient (some ("T", "S"))).access_token_secret = some "S" ∧
      save_tokens
        { request_token := none, request_token_secret := none,
          access_token := some "T", access_token_secret := some "S",
          tokens_validated := false } none = some ("T", "S") ∧
      (initClient (save_tokens
        { request_token := none, request_token_secret := none,
          access_token := some "T", access_token_secret := some "S",
          tokens_validated := false } none)).access_token = some "T" ∧
      (initClient (save_tokens
        { request_token := none, request_token_secret := none,
          access_token := some "T", access_token_secret := some "S",
          tokens_validated := false } none)).access_token_secret = some "S") :=
  ⟨⟨by decide, by decide⟩, token_store_round_trip "T" "S" none (by decide) (by decide)⟩

end ETrade
